import Mathlib

/-!
Verification of the libuv-java native file bridge (src/main/native/file.cpp).

The definitions below shallowly embed the request/callback bridge:
the `FileRequest` record, the stat codec `build_stats`, the completion
hook `_fs_cb` with its two `FileCallbacks::fs_cb` overloads (success and
error), the readdir name-list decoding loop, and the buffer staging /
commit copies performed through `GetByteArrayRegion` / `SetByteArrayRegion`.
Java byte arrays are modelled as `List Int` of their contents, JNI object
references as explicit values, and the mutation of a Java array as a pure
splice returning the new contents.  Machine `jlong` wrap-around is modelled
explicitly where multiplication can overflow (`wrap64`).
-/

namespace LibuvJava

/-- `uv_fs_type`: the operation kinds that reach the completion hook's
dispatch switch in `FileCallbacks::fs_cb` (file.cpp lines 249-330), plus
`UV_FS_SENDFILE`, which the facade submits asynchronously (line 866) but
which has no case in the switch. -/
inductive uv_fs_type where
  | UV_FS_CLOSE
  | UV_FS_RENAME
  | UV_FS_UNLINK
  | UV_FS_RMDIR
  | UV_FS_MKDIR
  | UV_FS_FTRUNCATE
  | UV_FS_FSYNC
  | UV_FS_FDATASYNC
  | UV_FS_LINK
  | UV_FS_SYMLINK
  | UV_FS_CHMOD
  | UV_FS_FCHMOD
  | UV_FS_CHOWN
  | UV_FS_FCHOWN
  | UV_FS_OPEN
  | UV_FS_UTIME
  | UV_FS_FUTIME
  | UV_FS_WRITE
  | UV_FS_READ
  | UV_FS_STAT
  | UV_FS_LSTAT
  | UV_FS_FSTAT
  | UV_FS_READLINK
  | UV_FS_READDIR
  | UV_FS_SENDFILE
  deriving DecidableEq

/-- The native stat structure (`uv_statbuf_t`) as read by `build_stats`.
Field values are the mathematical integers held by the native fields;
the timestamps are seconds-resolution `time_t` values. -/
structure uv_statbuf_t where
  st_dev : Int
  st_ino : Int
  st_mode : Int
  st_nlink : Int
  st_uid : Int
  st_gid : Int
  st_rdev : Int
  st_size : Int
  st_blksize : Int
  st_blocks : Int
  st_atime : Int
  st_mtime : Int
  st_ctime : Int
  deriving DecidableEq

/-- Two's-complement wrap of an integer into the signed 64-bit (`jlong`)
range, modelling what a 64-bit multiplication delivers across the JNI
boundary. -/
def wrap64 (x : Int) : Int := (x + 2 ^ 63) % 2 ^ 64 - 2 ^ 63

/-- The `net.java.libuv.handles.Stats` value object, in the field order of
its constructor signature `(IIIIIIIJIJJJJ)V`. -/
structure Stats where
  dev : Int
  ino : Int
  mode : Int
  nlink : Int
  uid : Int
  gid : Int
  rdev : Int
  size : Int
  blksize : Int
  blocks : Int
  atime : Int
  mtime : Int
  ctime : Int
  deriving DecidableEq

/-- `FileCallbacks::build_stats` (file.cpp lines 199-225): a null structure
pointer yields the null object; otherwise a `Stats` object is built, with
`st_blksize`/`st_blocks` only on POSIX (`#ifdef __POSIX__`, the `posix`
flag) and the three timestamps converted seconds to milliseconds by
multiplication with 1000 into a `jlong`. -/
def build_stats (posix : Bool) : Option uv_statbuf_t → Option Stats
  | none => none
  | some p =>
    some { dev := p.st_dev
           ino := p.st_ino
           mode := p.st_mode
           nlink := p.st_nlink
           uid := p.st_uid
           gid := p.st_gid
           rdev := p.st_rdev
           size := p.st_size
           blksize := if posix then p.st_blksize else 0
           blocks := if posix then p.st_blocks else 0
           atime := wrap64 (p.st_atime * 1000)
           mtime := wrap64 (p.st_mtime * 1000)
           ctime := wrap64 (p.st_ctime * 1000) }

/-- The `FileRequest` record (file.cpp lines 44-89).  `read_buffer` holds
the contents of the destination Java array when a global reference was
taken (`NewGlobalRef`), `byte_array` the contents of the scratch buffer
`_byte_array`. -/
structure FileRequest where
  callback_ptr : Int
  callback_id : Int
  read_buffer_offset : Int
  read_buffer : Option (List Int)
  byte_array : List Int
  deriving DecidableEq

/-- The scratch allocation performed by the `FileRequest` constructor
(lines 81-83): a byte array of `byte_array_size` elements is allocated
iff `byte_array_size > 0`; this is the size of `_byte_array`. -/
def fileRequestScratchSize (byte_array_size : Int) : Nat :=
  if byte_array_size > 0 then byte_array_size.toNat else 0

/-- The asynchronous branch of `Java_net_java_libuv_handles_Files__1read`
(lines 494-499): the scratch buffer size given to the `FileRequest`
(`buffer_size = length - offset`) paired with the byte count passed to
`uv_fs_read` (`length`). -/
def readAsyncSubmission (length offset : Int) : Nat × Int :=
  (fileRequestScratchSize (length - offset), length)

/-- `FileRequest::get_array_region_from_bytes` (lines 101-104):
`SetByteArrayRegion(_read_buffer, _read_buffer_offset, len, _byte_array)`
copies the first `len` scratch bytes into the destination array at the
stored offset; the (still referenced) destination is returned.  The result
is the destination array's new contents. -/
def get_array_region_from_bytes (request : FileRequest) (len : Int) : List Int :=
  let dest := request.read_buffer.getD []
  let off := request.read_buffer_offset.toNat
  dest.take off ++ request.byte_array.take len.toNat ++ dest.drop (off + len.toNat)

/-- `FileRequest::get_bytes_from_array_region` (lines 106-109):
`GetByteArrayRegion(data, offset, length, _byte_array)` copies `length`
bytes of `data` starting at `offset` into the scratch buffer, whose
remaining (uninitialized) tail is unchanged.  `scratch` is the scratch
buffer's prior contents; the result is its contents afterwards. -/
def get_bytes_from_array_region (scratch data : List Int) (length offset : Int) : List Int :=
  (data.drop offset.toNat).take length.toNat ++ scratch.drop length.toNat

/-- The exception object produced by `NewException` / `ThrowException`
(throw.h): the native error code, the syscall (operation) name, an
optional message and an optional path. -/
structure UvException where
  errorno : Int
  syscall : Option String
  msg : Option String
  path : Option String
  deriving DecidableEq

/-- A boundary value handed to a Java callback. -/
inductive JValue where
  | jint (i : Int)
  | jlong (l : Int)
  | jstats (s : Stats)
  | jstring (bytes : List Nat)
  | jbuffer (contents : List Int)
  | jexception (e : UvException)
  deriving DecidableEq

/-- One invocation of the bound callback target: `callback1` is the
single-argument entry point `callback(II Ljava/lang/Object;)V` (a `none`
argument is the Java `null`), `callbackN` the array-valued entry point
`callback(II [Ljava/lang/Object;)V`. -/
inductive Invocation where
  | callback1 (fs : uv_fs_type) (id : Int) (arg : Option JValue)
  | callbackN (fs : uv_fs_type) (id : Int) (args : List JValue)
  deriving DecidableEq

/-- `NewStringUTF` applied to a byte buffer: the characters up to, not
including, the first NUL terminator. -/
def cString (buf : List Nat) : List Nat := buf.takeWhile (fun b => b != 0)

/-- Advancing `namebuf` by `strlen(namebuf) + 1`: drop the first name and
its NUL terminator. -/
def dropCString (buf : List Nat) : List Nat := (buf.dropWhile (fun b => b != 0)).drop 1

/-- The readdir decoding loop (lines 308-318): iterate `nnames` times,
each iteration taking one NUL-terminated name and advancing past its
terminator. -/
def readNames : Nat → List Nat → List (List Nat)
  | 0, _ => []
  | n + 1, buf => cString buf :: readNames n (dropCString buf)

/-- The untyped `void *ptr` of a completed `uv_fs_t`, as reinterpreted by
the codec: null, a stat structure, or a byte buffer (readlink string /
readdir name list). -/
inductive AuxPtr where
  | nullPtr
  | statPtr (s : uv_statbuf_t)
  | bytesPtr (bytes : List Nat)
  deriving DecidableEq

/-- Reading `ptr` as a `uv_statbuf_t*` (`static_cast` in the stat cases). -/
def AuxPtr.asStat : AuxPtr → Option uv_statbuf_t
  | .statPtr s => some s
  | _ => none

/-- Reading `ptr` as a `char*` byte buffer (readlink / readdir cases). -/
def AuxPtr.asBytes : AuxPtr → List Nat
  | .bytesPtr b => b
  | _ => []

/-- The success overload `FileCallbacks::fs_cb(request, fs_type, result,
ptr)` (lines 242-338): dispatch on the operation kind, producing exactly
one callback invocation.  `none` models the
`default: assert(0 && "Unhandled eio response")` branch, which aborts
without invoking anything. -/
def fs_cb_success (posix : Bool) (request : FileRequest) (fs : uv_fs_type)
    (result : Int) (ptr : AuxPtr) : Option Invocation :=
  match fs with
  | .UV_FS_CLOSE | .UV_FS_RENAME | .UV_FS_UNLINK | .UV_FS_RMDIR | .UV_FS_MKDIR
  | .UV_FS_FTRUNCATE | .UV_FS_FSYNC | .UV_FS_FDATASYNC | .UV_FS_LINK
  | .UV_FS_SYMLINK | .UV_FS_CHMOD | .UV_FS_FCHMOD | .UV_FS_CHOWN | .UV_FS_FCHOWN =>
      some (.callback1 fs request.callback_id none)
  | .UV_FS_OPEN =>
      some (.callback1 fs request.callback_id (some (.jint result)))
  | .UV_FS_UTIME | .UV_FS_FUTIME | .UV_FS_WRITE =>
      some (.callback1 fs request.callback_id (some (.jlong result)))
  | .UV_FS_READ =>
      some (.callbackN fs request.callback_id
        [.jlong result, .jbuffer (get_array_region_from_bytes request result)])
  | .UV_FS_STAT | .UV_FS_LSTAT | .UV_FS_FSTAT =>
      some (.callback1 fs request.callback_id
        ((build_stats posix ptr.asStat).map .jstats))
  | .UV_FS_READLINK =>
      some (.callback1 fs request.callback_id (some (.jstring (cString ptr.asBytes))))
  | .UV_FS_READDIR =>
      some (.callbackN fs request.callback_id
        ((readNames result.toNat ptr.asBytes).map .jstring))
  | .UV_FS_SENDFILE => none

/-- The error overload `FileCallbacks::fs_cb(request, fs_type, errorno,
path)` (lines 340-358): a two-element array holding `Integer.valueOf(-1)`
and `NewException(env, errorno, NULL, NULL, path)`, delivered through the
array-valued entry point. -/
def fs_cb_error (request : FileRequest) (fs : uv_fs_type) (errorno : Int)
    (path : Option String) : Invocation :=
  .callbackN fs request.callback_id
    [.jint (-1),
     .jexception { errorno := errorno, syscall := none, msg := none, path := path }]

/-- The fields of a completed `uv_fs_t` that `_fs_cb` reads. -/
structure uv_fs_t where
  fs_type : uv_fs_type
  result : Int
  errorno : Int
  path : Option String
  ptr : AuxPtr
  deriving DecidableEq

/-- Observable steps of the completion hook, in order. -/
inductive HookEvent where
  | invoked (i : Invocation)
  | reqCleanedUp
  | requestDisposed
  deriving DecidableEq

/-- The completion hook `_fs_cb` (lines 360-378): classify the completion
as a failure exactly when `req->result == -1`, invoke the corresponding
`fs_cb` overload, then `uv_fs_req_cleanup(req)`, `delete req`, and
`delete request` (the `FileRequest` destructor releases the destination
global reference and frees the scratch buffer).  `none` models an abort
inside the callback (the unhandled-kind assertion): no invocation and no
disposal happen. -/
def fs_cb_hook (posix : Bool) (req : uv_fs_t) (request : FileRequest) :
    Option (List HookEvent) :=
  if req.result = -1 then
    some [.invoked (fs_cb_error request req.fs_type req.errorno req.path),
          .reqCleanedUp, .requestDisposed]
  else
    (fs_cb_success posix request req.fs_type req.result req.ptr).map
      (fun i => [.invoked i, .reqCleanedUp, .requestDisposed])

/-- The asynchronous branch of `Java_net_java_libuv_handles_Files__1write`
(lines 556-562): `buffer_size = GetArrayLength(data)`; a request with a
scratch buffer of `buffer_size` bytes (contents `scratch0` before
staging); then `get_bytes_from_array_region(data, buffer_size - offset,
offset)` stages the source bytes.  The result pairs the scratch contents
after staging (the `base` pointer handed to `uv_fs_write`) with the byte
count passed to `uv_fs_write` (`length`). -/
def writeAsyncSubmission (scratch0 data : List Int) (length offset : Int) :
    List Int × Int :=
  (get_bytes_from_array_region scratch0 data ((data.length : Int) - offset) offset,
   length)

/-- The synchronous branch of `Java_net_java_libuv_handles_Files__1read`
(lines 500-510), after `uv_fs_read` returned `r` leaving the transient
buffer `base` (allocated with `length - offset` bytes): unconditionally
`SetByteArrayRegion(buffer, offset, length, base)`, then cleanup and
`delete base`, then throw a translated exception iff `r < 0`.  The result
pairs the destination array's contents afterwards with the outcome. -/
def readSyncTail (buffer base : List Int) (offset length r code : Int) :
    List Int × Except UvException Int :=
  (buffer.take offset.toNat ++ base.take length.toNat
     ++ buffer.drop (offset.toNat + length.toNat),
   if r < 0 then
     .error { errorno := code, syscall := some "uv_fs_read", msg := none, path := none }
   else .ok r)

/-- The synchronous branch of `Java_net_java_libuv_handles_Files__1stat`
(lines 699-705): after `uv_fs_stat` returned `r`, `build_stats(req.ptr)`
runs first, then cleanup, then a translated exception
`ThrowException(env, code, "uv_fs_stat", NULL, cpath)` is raised iff
`r < 0`; otherwise the converted value is returned. -/
def statSyncTail (posix : Bool) (r : Int) (ptr : Option uv_statbuf_t)
    (code : Int) (cpath : String) : Except UvException (Option Stats) :=
  let stats := build_stats posix ptr
  if r < 0 then
    .error { errorno := code, syscall := some "uv_fs_stat", msg := none,
             path := some cpath }
  else .ok stats

/-! ### Helper lemmas -/

lemma cString_append (nm t : List Nat) (h : 0 ∉ nm) : cString (nm ++ 0 :: t) = nm := by
  induction nm with
  | nil => simp [cString]
  | cons a nm ih =>
    have ha : (a != 0) = true := by
      simp only [bne_iff_ne, ne_eq]
      exact fun hz => h (hz ▸ List.mem_cons_self a nm)
    have hnm : 0 ∉ nm := fun hz => h (List.mem_cons_of_mem a hz)
    simp only [cString] at ih
    simp only [List.cons_append, cString, List.takeWhile_cons, ha, if_true]
    exact congrArg (List.cons a) (ih hnm)

lemma dropCString_append (nm t : List Nat) (h : 0 ∉ nm) : dropCString (nm ++ 0 :: t) = t := by
  induction nm with
  | nil => simp [dropCString]
  | cons a nm ih =>
    have ha : (a != 0) = true := by
      simp only [bne_iff_ne, ne_eq]
      exact fun hz => h (hz ▸ List.mem_cons_self a nm)
    have hnm : 0 ∉ nm := fun hz => h (List.mem_cons_of_mem a hz)
    simp only [dropCString] at ih
    simp only [List.cons_append, dropCString, List.dropWhile_cons, ha, if_true]
    exact ih hnm

lemma readNames_flatten (names : List (List Nat)) (rest : List Nat)
    (h : ∀ nm ∈ names, 0 ∉ nm) :
    readNames names.length ((names.map (fun nm => nm ++ [0])).flatten ++ rest) = names := by
  induction names with
  | nil => rfl
  | cons nm names ih =>
    have hnm : 0 ∉ nm := h nm (List.mem_cons_self nm names)
    have hrec : ∀ x ∈ names, 0 ∉ x := fun x hx => h x (List.mem_cons_of_mem nm hx)
    have hbuf : ((nm :: names).map (fun x => x ++ [0])).flatten ++ rest
        = nm ++ 0 :: ((names.map (fun x => x ++ [0])).flatten ++ rest) := by
      simp
    rw [List.length_cons, hbuf]
    simp only [readNames, cString_append _ _ hnm, dropCString_append _ _ hnm]
    rw [ih hrec]

lemma wrap64_eq_self (x : Int) (h1 : -(2 ^ 63) ≤ x) (h2 : x < 2 ^ 63) : wrap64 x = x := by
  unfold wrap64
  omega

/-! ### Claim theorems -/

/-- C1: the claim states that every successfully submitted Request whose
completion is delivered gets exactly one callback invocation followed by
disposal.  Evaluating the completion hook at the failing input — a
successfully completed asynchronous sendfile (`UV_FS_SENDFILE`, result 0) —
shows it reaches the unhandled-kind assertion and aborts (`none`): no
callback is invoked and the Request is not disposed. -/
theorem c1_sendfile_completion_aborts :
    fs_cb_hook true ⟨.UV_FS_SENDFILE, 0, 0, none, .nullPtr⟩
      ⟨0, 1, 0, none, []⟩ = none := rfl

/-- C2: the claim states the asynchronous read's scratch buffer is
allocated with size exactly the requested transfer length.  Evaluating the
submission at length 5, offset 3: the scratch buffer is allocated with
`length - offset = 2` bytes while `uv_fs_read` is passed nbytes
`length = 5` — the allocation is not the requested transfer length. -/
theorem c2_read_scratch_undersized :
    readAsyncSubmission 5 3 = (2, 5) ∧ (readAsyncSubmission 5 3).1 ≠ 5 := by decide

/-- C3: a successfully completed asynchronous read with byte count `n`
is delivered as a single array-valued invocation whose result is the pair
(Long value of `n`, destination buffer with the first `n` scratch bytes
copied in at the destination offset), followed by disposal of the
Request. -/
theorem c3_read_success_single_delivery
    (posix : Bool) (request : FileRequest) (dest : List Int) (off n : Nat)
    (errno : Int) (path : Option String) (ptr : AuxPtr)
    (hdest : request.read_buffer = some dest)
    (hoff : request.read_buffer_offset = (off : Int)) :
    fs_cb_hook posix ⟨.UV_FS_READ, (n : Int), errno, path, ptr⟩ request =
      some [.invoked (.callbackN .UV_FS_READ request.callback_id
              [.jlong (n : Int),
               .jbuffer (dest.take off ++ request.byte_array.take n
                          ++ dest.drop (off + n))]),
            .reqCleanedUp, .requestDisposed] := by
  have hne : (n : Int) ≠ -1 := by omega
  simp [fs_cb_hook, hne, fs_cb_success, get_array_region_from_bytes, hdest, hoff]

theorem c3_read_success_single_delivery_witness :
    fs_cb_hook true ⟨.UV_FS_READ, (3 : Int), 0, none, .nullPtr⟩
        ⟨0, 9, 1, some [7, 7, 7, 7, 7], [10, 20, 30, 40]⟩ =
      some [.invoked (.callbackN .UV_FS_READ 9
              [.jlong (3 : Int),
               .jbuffer (([7, 7, 7, 7, 7] : List Int).take 1
                          ++ ([10, 20, 30, 40] : List Int).take 3
                          ++ ([7, 7, 7, 7, 7] : List Int).drop (1 + 3))]),
            .reqCleanedUp, .requestDisposed] :=
  c3_read_success_single_delivery true ⟨0, 9, 1, some [7, 7, 7, 7, 7], [10, 20, 30, 40]⟩
    [7, 7, 7, 7, 7] 1 3 0 none .nullPtr rfl rfl

/-- C4 counterexample: the claim states the asynchronous error object is
constructed from the native error code, the operation name and the path.
At the concrete failed completion (open, errorno 2, path "f") the hook
delivers the two-element error result whose exception has `syscall = none`:
the operation name is not part of the constructed error object
(`NewException(env, errorno, NULL, NULL, path)`). -/
theorem c4_async_error_lacks_syscall_name :
    fs_cb_hook true ⟨.UV_FS_OPEN, -1, 2, some "f", .nullPtr⟩ ⟨0, 7, 0, none, []⟩ =
      some [.invoked (.callbackN .UV_FS_OPEN 7
              [.jint (-1),
               .jexception { errorno := 2, syscall := none, msg := none,
                             path := some "f" }]),
            .reqCleanedUp, .requestDisposed]
    ∧ UvException.syscall { errorno := 2, syscall := none, msg := none,
                            path := some "f" } = none :=
  ⟨rfl, rfl⟩

/-- C4 (amended): every failed completion (native result -1) is delivered
as a two-element result whose first element is the sentinel -1 and whose
second is an error object constructed from the native error code and the
path argument, with no operation name (null). -/
theorem c4_error_completion_shape (posix : Bool) (req : uv_fs_t)
    (request : FileRequest) (h : req.result = -1) :
    fs_cb_hook posix req request =
      some [.invoked (.callbackN req.fs_type request.callback_id
              [.jint (-1),
               .jexception { errorno := req.errorno, syscall := none, msg := none,
                             path := req.path }]),
            .reqCleanedUp, .requestDisposed] := by
  simp [fs_cb_hook, h, fs_cb_error]

theorem c4_error_completion_shape_witness :
    fs_cb_hook true ⟨.UV_FS_STAT, -1, 2, some "missing", .nullPtr⟩
        ⟨0, 4, 0, none, []⟩ =
      some [.invoked (.callbackN .UV_FS_STAT 4
              [.jint (-1),
               .jexception { errorno := 2, syscall := none, msg := none,
                             path := some "missing" }]),
            .reqCleanedUp, .requestDisposed] :=
  c4_error_completion_shape true ⟨.UV_FS_STAT, -1, 2, some "missing", .nullPtr⟩
    ⟨0, 4, 0, none, []⟩ rfl

/-- C5: a readdir completion whose count is `names.length` over a buffer
holding exactly those NUL-terminated names (each free of embedded NULs)
followed by arbitrary further bytes `rest` decodes to exactly those names,
in order, delivered as a single array-valued invocation; the result does
not depend on `rest`, so the codec never reads past the count-th
terminator. -/
theorem c5_readdir_names_decoded (posix : Bool) (request : FileRequest)
    (names : List (List Nat)) (rest : List Nat) (errno : Int) (path : Option String)
    (h : ∀ nm ∈ names, 0 ∉ nm) :
    fs_cb_hook posix
        ⟨.UV_FS_READDIR, (names.length : Int), errno, path,
         .bytesPtr ((names.map (fun nm => nm ++ [0])).flatten ++ rest)⟩ request =
      some [.invoked (.callbackN .UV_FS_READDIR request.callback_id
              (names.map JValue.jstring)),
            .reqCleanedUp, .requestDisposed] := by
  have hne : (names.length : Int) ≠ -1 := by omega
  simp [fs_cb_hook, hne, fs_cb_success, AuxPtr.asBytes,
    readNames_flatten names rest h]

/-- C6 counterexample: the claim states that staging an asynchronous write
with `(sourceData, length, offset)` places exactly `length` bytes from
`sourceData` starting at `offset` into the scratch buffer.  At
sourceData = [10,20,30,40], length = 1, offset = 1 and (uninitialized)
scratch contents [0,0,0,0], the scratch after staging is [20,30,40,0] —
the whole tail of the source from `offset` was copied — and not
[20,0,0,0], the result of copying exactly `length = 1` byte. -/
theorem c6_write_stages_whole_tail :
    (writeAsyncSubmission [0, 0, 0, 0] [10, 20, 30, 40] 1 1).1 = [20, 30, 40, 0]
    ∧ (writeAsyncSubmission [0, 0, 0, 0] [10, 20, 30, 40] 1 1).1 ≠
        ([20] ++ ([0, 0, 0, 0] : List Int).drop 1) := by decide

/-- C6 (amended): staging an asynchronous write copies
`sourceData.length - offset` bytes — the whole remainder of the source
array from `offset` — into the scratch buffer (the `length` argument is
not used for staging; it is only the byte count submitted to
`uv_fs_write`). -/
theorem c6_write_stage_copies_source_tail (scratch0 data : List Int)
    (length offset : Int) (h0 : 0 ≤ offset) (h1 : offset.toNat ≤ data.length) :
    (writeAsyncSubmission scratch0 data length offset).1 =
      data.drop offset.toNat ++ scratch0.drop (data.length - offset.toNat)
    ∧ (writeAsyncSubmission scratch0 data length offset).2 = length := by
  have hk : ((data.length : Int) - offset).toNat = data.length - offset.toNat := by
    omega
  refine ⟨?_, rfl⟩
  simp only [writeAsyncSubmission, get_bytes_from_array_region, hk]
  congr 1
  have hlen : (data.drop offset.toNat).length = data.length - offset.toNat :=
    List.length_drop _ _
  rw [← hlen, List.take_length]

theorem c6_write_stage_copies_source_tail_witness :
    (writeAsyncSubmission [0, 0, 0, 0] [10, 20, 30, 40] 1 1).1 =
      ([10, 20, 30, 40] : List Int).drop (1 : Int).toNat
        ++ ([0, 0, 0, 0] : List Int).drop
             (([10, 20, 30, 40] : List Int).length - (1 : Int).toNat)
    ∧ (writeAsyncSubmission [0, 0, 0, 0] [10, 20, 30, 40] 1 1).2 = 1 :=
  c6_write_stage_copies_source_tail [0, 0, 0, 0] [10, 20, 30, 40] 1 1
    (by decide) (by decide)

/-- C7: for every non-null stat structure whose millisecond products are
representable as `jlong`, the produced Stats value carries each of the
three timestamps equal to the native seconds value multiplied by exactly
1000 (including zero and negative values, as the witness shows). -/
theorem c7_stat_timestamps_ms (posix : Bool) (p : uv_statbuf_t)
    (ha1 : -(2 ^ 63) ≤ p.st_atime * 1000) (ha2 : p.st_atime * 1000 < 2 ^ 63)
    (hm1 : -(2 ^ 63) ≤ p.st_mtime * 1000) (hm2 : p.st_mtime * 1000 < 2 ^ 63)
    (hc1 : -(2 ^ 63) ≤ p.st_ctime * 1000) (hc2 : p.st_ctime * 1000 < 2 ^ 63) :
    ∃ st, build_stats posix (some p) = some st
      ∧ st.atime = p.st_atime * 1000
      ∧ st.mtime = p.st_mtime * 1000
      ∧ st.ctime = p.st_ctime * 1000 := by
  refine ⟨_, rfl, ?_, ?_, ?_⟩
  · exact wrap64_eq_self _ ha1 ha2
  · exact wrap64_eq_self _ hm1 hm2
  · exact wrap64_eq_self _ hc1 hc2

theorem c7_stat_timestamps_ms_witness :
    ∃ st, build_stats true (some ⟨1, 2, 3, 4, 5, 6, 7, 8, 9, 10, -5, 0, 7⟩) = some st
      ∧ st.atime = (-5 : Int) * 1000
      ∧ st.mtime = (0 : Int) * 1000
      ∧ st.ctime = (7 : Int) * 1000 :=
  c7_stat_timestamps_ms true ⟨1, 2, 3, 4, 5, 6, 7, 8, 9, 10, -5, 0, 7⟩
    (by norm_num) (by norm_num) (by norm_num) (by norm_num) (by norm_num)
    (by norm_num)

/-- C8: the stat codec maps an absent (null) structure pointer to the null
value rather than an error, and on the synchronous stat path — which runs
`build_stats` before the error check — a null pointer flows through as the
null value on the success branch and does not fault before the translated
error is raised on the failure branch. -/
theorem c8_null_stat_is_null (posix : Bool) (r code : Int) (cpath : String) :
    build_stats posix none = none
    ∧ (0 ≤ r → statSyncTail posix r none code cpath = .ok none)
    ∧ (r < 0 → statSyncTail posix r none code cpath =
        .error { errorno := code, syscall := some "uv_fs_stat", msg := none,
                 path := some cpath }) := by
  refine ⟨rfl, ?_, ?_⟩
  · intro h
    simp [statSyncTail, build_stats, not_lt.mpr h]
  · intro h
    simp [statSyncTail, h]

theorem c8_null_stat_is_null_witness :
    statSyncTail true (-2) none 5 "missing" =
      .error { errorno := 5, syscall := some "uv_fs_stat", msg := none,
               path := some "missing" } :=
  (c8_null_stat_is_null true (-2) 5 "missing").2.2 (by norm_num)

theorem c5_readdir_names_decoded_witness :
    fs_cb_hook true
        ⟨.UV_FS_READDIR, (([[97], [98]] : List (List Nat)).length : Int), 0, none,
         .bytesPtr ((([[97], [98]] : List (List Nat)).map
            (fun nm => nm ++ [0])).flatten ++ [99])⟩
        ⟨0, 2, 0, none, []⟩ =
      some [.invoked (.callbackN .UV_FS_READDIR 2
              (([[97], [98]] : List (List Nat)).map JValue.jstring)),
            .reqCleanedUp, .requestDisposed] :=
  c5_readdir_names_decoded true ⟨0, 2, 0, none, []⟩ [[97], [98]] [99] 0 none
    (by decide)

lemma map_jstring_ne_jint_cons (l : List (List Nat)) (a : Int) (t : List JValue) :
    l.map JValue.jstring ≠ JValue.jint a :: t := by
  cases l <;> simp

/-- C9: the completion hook classifies a completion as a failure exactly
when the native result equals -1 — the error-shaped delivery (sentinel -1
plus exception) occurs iff `result = -1` — and any other result value,
including other negative values, is decoded through the success dispatch;
for a read, such a result is passed to the buffer commit as the byte
count. -/
theorem c9_failure_iff_result_eq_neg_one (posix : Bool) (fs : uv_fs_type)
    (r errno : Int) (path : Option String) (ptr : AuxPtr) (request : FileRequest) :
    ((∃ e rest, fs_cb_hook posix ⟨fs, r, errno, path, ptr⟩ request =
        some (HookEvent.invoked (Invocation.callbackN fs request.callback_id
          [JValue.jint (-1), JValue.jexception e]) :: rest)) ↔ r = -1)
    ∧ (r ≠ -1 →
        fs_cb_hook posix ⟨.UV_FS_READ, r, errno, path, ptr⟩ request =
          some [.invoked (.callbackN .UV_FS_READ request.callback_id
                  [.jlong r, .jbuffer (get_array_region_from_bytes request r)]),
                .reqCleanedUp, .requestDisposed]) := by
  constructor
  · constructor
    · rintro ⟨e, rest, heq⟩
      by_contra hr
      simp only [fs_cb_hook, if_neg hr] at heq
      cases fs <;> simp [fs_cb_success, map_jstring_ne_jint_cons] at heq
    · intro hr
      subst hr
      exact ⟨{ errorno := errno, syscall := none, msg := none, path := path },
        [.reqCleanedUp, .requestDisposed], by simp [fs_cb_hook, fs_cb_error]⟩
  · intro hr
    simp [fs_cb_hook, hr, fs_cb_success]

theorem c9_failure_iff_result_eq_neg_one_witness :
    fs_cb_hook true ⟨.UV_FS_READ, -2, 0, none, .nullPtr⟩
        ⟨0, 3, 0, some [1, 2, 3], []⟩ =
      some [.invoked (.callbackN .UV_FS_READ 3
              [.jlong (-2),
               .jbuffer (get_array_region_from_bytes ⟨0, 3, 0, some [1, 2, 3], []⟩
                 (-2))]),
            .reqCleanedUp, .requestDisposed] :=
  (c9_failure_iff_result_eq_neg_one true .UV_FS_READ (-2) 0 none .nullPtr
    ⟨0, 3, 0, some [1, 2, 3], []⟩).2 (by norm_num)

/-- C10: on the synchronous read path the destination region of `length`
bytes starting at `offset` is overwritten from the transient buffer for
every native result `r` — before the `r < 0` check runs — so the region
holds the transient bytes, the rest of the destination is unchanged, and
on a failed read the translated error is raised only afterwards. -/
theorem c10_sync_read_always_writes_back (buffer base : List Int) (off len : Nat)
    (r code : Int) (hbuf : off + len ≤ buffer.length) (hbase : len ≤ base.length) :
    ((readSyncTail buffer base (off : Int) (len : Int) r code).1).take off =
        buffer.take off
    ∧ (((readSyncTail buffer base (off : Int) (len : Int) r code).1).drop off).take len =
        base.take len
    ∧ ((readSyncTail buffer base (off : Int) (len : Int) r code).1).drop (off + len) =
        buffer.drop (off + len)
    ∧ (r < 0 → (readSyncTail buffer base (off : Int) (len : Int) r code).2 =
        .error { errorno := code, syscall := some "uv_fs_read", msg := none,
                 path := none }) := by
  have hA : (buffer.take off).length = off := by
    rw [List.length_take]
    omega
  have hB : (base.take len).length = len := by
    rw [List.length_take]
    omega
  have hAB : (buffer.take off ++ base.take len).length = off + len := by
    rw [List.length_append, hA, hB]
  have hres : (readSyncTail buffer base (off : Int) (len : Int) r code).1 =
      buffer.take off ++ base.take len ++ buffer.drop (off + len) := by
    simp [readSyncTail]
  refine ⟨?_, ?_, ?_, ?_⟩
  · rw [hres, List.append_assoc, List.take_left' hA]
  · rw [hres, List.append_assoc, List.drop_left' hA, List.take_left' hB]
  · rw [hres, List.drop_left' hAB]
  · intro h
    simp [readSyncTail, h]

theorem c10_sync_read_always_writes_back_witness :
    ((readSyncTail [9, 9, 9, 9] [5, 6] 1 2 (-1) 7).1).take 1 =
        ([9, 9, 9, 9] : List Int).take 1
    ∧ (((readSyncTail [9, 9, 9, 9] [5, 6] 1 2 (-1) 7).1).drop 1).take 2 =
        ([5, 6] : List Int).take 2
    ∧ ((readSyncTail [9, 9, 9, 9] [5, 6] 1 2 (-1) 7).1).drop (1 + 2) =
        ([9, 9, 9, 9] : List Int).drop (1 + 2)
    ∧ (readSyncTail [9, 9, 9, 9] [5, 6] 1 2 (-1) 7).2 =
        .error { errorno := 7, syscall := some "uv_fs_read", msg := none,
                 path := none } := by
  have h := c10_sync_read_always_writes_back [9, 9, 9, 9] [5, 6] 1 2 (-1) 7
    (by decide) (by decide)
  exact ⟨h.1, h.2.1, h.2.2.1, h.2.2.2 (by norm_num)⟩

end LibuvJava
